import Mathlib

/-!
Verification development for the `bot-eqilibrio` WhatsApp scheduling bot
(`src/bot.py`).  The Python source is shallow-embedded: pure helper
functions become Lean functions, the database-backed pending-confirmation
store becomes an `Option` value threaded through the orchestrator, the
Google Calendar and Gemini collaborators become oracle parameters
(`Calendar`, `String → LLMResponse`), and the per-sender message-buffer /
timer machinery becomes an explicit transition system.  Timestamps are
modelled in the clinic's fixed timezone as a Gregorian date plus
hour/minute/second/microsecond fields, compared through a total stamp.
-/

namespace Bot

/-- Python whitespace characters recognised by `str.strip` / `\s`. -/
def isPyWs (c : Char) : Bool :=
  c = ' ' || c = '\t' || c = '\n' || c = '\r' || c = '\x0b' || c = '\x0c'

/-- Word characters for Python's `\w` / `\b`, restricted to ASCII
alphanumerics, underscore and the Spanish accented letters that occur in
this program's vocabulary. -/
def isPyWordChar (c : Char) : Bool :=
  c.isAlphanum || c = '_' ||
  c = 'á' || c = 'é' || c = 'í' || c = 'ó' || c = 'ú' || c = 'ñ' ||
  c = 'Á' || c = 'É' || c = 'Í' || c = 'Ó' || c = 'Ú' || c = 'Ñ' || c = 'ü' || c = 'Ü'

/-- `str.lower`, ASCII range (sufficient for the messages analysed here). -/
def pyLower (s : String) : String := String.mk (s.toList.map Char.toLower)

/-- Split a character list on a separator character, keeping empty
pieces (the semantics of Python's `str.split(sep)` for a one-character
separator). -/
def splitOnCharGo (sep : Char) : List Char → List Char → List (List Char)
  | [], acc => [acc.reverse]
  | c :: t, acc =>
    if c = sep then acc.reverse :: splitOnCharGo sep t []
    else splitOnCharGo sep t (c :: acc)

/-- `s.split(sep)` for a one-character separator. -/
def splitOnCharL (sep : Char) (cs : List Char) : List (List Char) :=
  splitOnCharGo sep cs []

/-- Join strings with a separator (`sep.join(ss)`). -/
def joinSep (sep : String) : List String → String
  | [] => ""
  | [x] => x
  | x :: y :: t => x ++ sep ++ joinSep sep (y :: t)

/-- `str.strip` on a character list. -/
def pyStripL (cs : List Char) : List Char :=
  ((cs.dropWhile isPyWs).reverse.dropWhile isPyWs).reverse

/-- `str.strip` on a string. -/
def pyStripS (s : String) : String := String.mk (pyStripL s.toList)

/-- List-prefix test. -/
def isPrefixL (p s : List Char) : Bool :=
  match p, s with
  | [], _ => true
  | _ :: _, [] => false
  | a :: p', b :: s' => a = b && isPrefixL p' s'

/-- Substring occurrence (`needle in haystack`), needle first. -/
def containsL (pat : List Char) : List Char → Bool
  | [] => isPrefixL pat []
  | c :: t => isPrefixL pat (c :: t) || containsL pat t

/-- Python's `sub in s`. -/
def containsSub (s sub : String) : Bool := containsL sub.toList s.toList

/-- Worker for the no-argument `str.split`: accumulate the current word
(reversed) and emit it at each whitespace run. -/
def pyWordsGo : List Char → List Char → List (List Char)
  | [], acc => if acc.isEmpty then [] else [acc.reverse]
  | c :: t, acc =>
    if isPyWs c then
      if acc.isEmpty then pyWordsGo t [] else acc.reverse :: pyWordsGo t []
    else pyWordsGo t (c :: acc)

/-- Python's no-argument `str.split` (split on whitespace runs, drop empties). -/
def pyWords (s : String) : List String :=
  (pyWordsGo s.toList []).map String.mk

/-- All characters are ASCII digits. -/
def allDigitsL (cs : List Char) : Bool := cs.all Char.isDigit

/-- Digit list to number. -/
def digitsToNat (cs : List Char) : Nat :=
  cs.foldl (fun a c => a * 10 + (c.toNat - 48)) 0

/-- Zero-pad to two digits (`%02d`). -/
def pad2 (n : Nat) : String := if n < 10 then "0" ++ toString n else toString n

/-- Zero-pad to four digits (`%Y`). -/
def pad4 (n : Nat) : String :=
  if n < 10 then "000" ++ toString n
  else if n < 100 then "00" ++ toString n
  else if n < 1000 then "0" ++ toString n
  else toString n

/-- A Gregorian calendar date. -/
structure Date where
  y : Nat
  m : Nat
  d : Nat
  deriving DecidableEq, Repr

/-- Gregorian leap year. -/
def isLeap (y : Nat) : Bool := y % 4 = 0 && (y % 100 ≠ 0 || y % 400 = 0)

/-- Length of a month. -/
def daysInMonth (y m : Nat) : Nat :=
  if m = 2 then (if isLeap y then 29 else 28)
  else if m = 4 || m = 6 || m = 9 || m = 11 then 30
  else 31

/-- Days in months strictly before month `m` of year `y`. -/
def daysBeforeMonth (y m : Nat) : Nat :=
  ((List.range (m - 1)).map (fun i => daysInMonth y (i + 1))).foldl (· + ·) 0

/-- Day count with 0001-01-01 ↦ 1 (proleptic Gregorian). -/
def dayNumber (dt : Date) : Nat :=
  (dt.y - 1) * 365 + (dt.y - 1) / 4 - (dt.y - 1) / 100 + (dt.y - 1) / 400 +
    daysBeforeMonth dt.y dt.m + dt.d

/-- Python `datetime.weekday`: Monday = 0, …, Sunday = 6. -/
def weekday (dt : Date) : Nat := (dayNumber dt + 6) % 7

/-- Successor date. -/
def nextDay (dt : Date) : Date :=
  if dt.d < daysInMonth dt.y dt.m then ⟨dt.y, dt.m, dt.d + 1⟩
  else if dt.m < 12 then ⟨dt.y, dt.m + 1, 1⟩
  else ⟨dt.y + 1, 1, 1⟩

/-- `date + timedelta(days = n)`. -/
def addDays (dt : Date) : Nat → Date
  | 0 => dt
  | n + 1 => addDays (nextDay dt) n

/-- A timezone-aware instant in the clinic's fixed timezone
(`America/Santiago`), as the Python code always constructs them. -/
structure DT where
  date : Date
  h : Nat
  mi : Nat
  sec : Nat
  micro : Nat
  deriving DecidableEq, Repr

/-- Total order on instants, microsecond precision. -/
def toStamp (t : DT) : Nat :=
  (((dayNumber t.date * 24 + t.h) * 60 + t.mi) * 60 + t.sec) * 1000000 + t.micro

/-- `dt + timedelta(hours = k)`. -/
def addHours (t : DT) (k : Nat) : DT :=
  ⟨addDays t.date ((t.h + k) / 24), (t.h + k) % 24, t.mi, t.sec, t.micro⟩

/-- `strftime('%Y-%m-%d')`. -/
def fmtYMD (d : Date) : String := pad4 d.y ++ "-" ++ pad2 d.m ++ "-" ++ pad2 d.d

/-- `strftime('%d/%m/%Y')`. -/
def fmtDMY (d : Date) : String := pad2 d.d ++ "/" ++ pad2 d.m ++ "/" ++ pad4 d.y

/-- A Google Calendar event body as built by `create_appointment`
(bot.py:891-909). -/
structure CalEvent where
  summary : String
  description : String
  start : DT
  stop : DT
  deriving Repr

/-- The Google Calendar collaborator.  `freebusy s e` models the
`freebusy().query` call: `.ok b` is a successful response whose busy list
is non-empty iff `b`; `.error ()` is a raised exception.  `createEvent`
models `events().insert`: `.ok id` is a confirmed event id, `.error ()` a
raised exception. -/
structure Calendar where
  freebusy : DT → DT → Except Unit Bool
  createEvent : CalEvent → Except Unit String

/-- `check_freebusy` (bot.py:869-883): returns whether the calendar
reports a busy interval; any exception is caught and `False` is
returned. -/
def check_freebusy (cal : Calendar) (start_dt end_dt : DT) : Bool :=
  match cal.freebusy start_dt end_dt with
  | Except.ok b => b
  | Except.error _ => false

/-- `create_appointment` (bot.py:885-917): builds the event body and
inserts it; on an API exception the function logs and re-raises, which we
model by propagating the `Except`. -/
def create_appointment (cal : Calendar) (name contact : String) (dt : DT) :
    Except Unit String :=
  cal.createEvent
    { summary := "Cita: " ++ name
      description := "Contacto: " ++ contact ++ "\nMétodo Equilibrio"
      start := dt
      stop := addHours dt 1 }

/-- `f"{hour:02d}:{minute:02d}"` for the whole-hour slots (minute 0). -/
def fmtSlot (h : Nat) : String := pad2 h ++ ":" ++ pad2 0

/-- The fixed hourly slot starts per weekday (bot.py:758-763). -/
def slotsFor (wd : Nat) : List Nat :=
  if wd = 1 || wd = 3 then [15, 16, 17, 18]
  else if wd = 2 || wd = 4 then [10, 11, 12, 13, 14, 15, 16, 17]
  else [10, 11, 12]

/-- `get_available_slots` (bot.py:744-776): zeroes the time-of-day, closes
Monday/Sunday, enumerates the weekday's hourly slots and keeps those that
are strictly in the future and not reported busy.  The collaborators'
exceptions are absorbed inside `check_freebusy`, so the function's own
`except` branch is unreachable in this model. -/
def get_available_slots (cal : Calendar) (now dateArg : DT) : List String :=
  if weekday dateArg.date = 0 || weekday dateArg.date = 6 then []
  else
    ((slotsFor (weekday dateArg.date)).filter (fun h =>
        decide (toStamp ⟨dateArg.date, h, 0, 0, 0⟩ > toStamp now) &&
        !check_freebusy cal ⟨dateArg.date, h, 0, 0, 0⟩
          (addHours ⟨dateArg.date, h, 0, 0, 0⟩ 1))).map fmtSlot

/-- `validate_business_hours` (bot.py:844-867): past instants first, then
closed days, then the per-weekday opening windows `[open, close)` on the
hour field. -/
def validate_business_hours (now dt : DT) : Option String :=
  if toStamp dt < toStamp now then some "❌ Esa fecha/hora ya pasó"
  else if weekday dt.date = 0 then some "❌ Cerrados los lunes"
  else if weekday dt.date = 6 then some "❌ Cerrados los domingos"
  else if weekday dt.date = 1 || weekday dt.date = 3 then
    if ¬(15 ≤ dt.h ∧ dt.h < 19) then some "❌ Mar/Jue atendemos 15:00-19:00" else none
  else if weekday dt.date = 2 || weekday dt.date = 4 then
    if ¬(10 ≤ dt.h ∧ dt.h < 18) then some "❌ Mié/Vie atendemos 10:00-18:00" else none
  else if weekday dt.date = 5 then
    if ¬(10 ≤ dt.h ∧ dt.h < 13) then some "❌ Sábados 10:00-13:00" else none
  else none

/-- `contact.replace('+', '').replace(' ', '').replace('-', '')`
(bot.py:799). -/
def stripContact (s : String) : String :=
  String.mk (s.toList.filter (fun c => !(c = '+' || c = ' ' || c = '-')))

/-- `contact_clean.isdigit() and len(contact_clean) >= 8` (bot.py:800). -/
def is_phone (cleaned : String) : Bool :=
  allDigitsL cleaned.toList && cleaned.length ≥ 8

/-- `re.match(r'^[\w\.-]+@[\w\.-]+\.\w+$', contact)` (bot.py:801), as the
existence of a decomposition `local @ mid . tld` with `local`/`mid`
non-empty over `[\w.-]` and `tld` non-empty over `\w`. -/
def isEmailShape (s : String) : Bool :=
  let cs := s.toList
  let n := cs.length
  let classA := fun c => isPyWordChar c || c = '.' || c = '-'
  (List.range n).any fun i =>
    (List.range n).any fun j =>
      cs.getD i ' ' = '@' && cs.getD j ' ' = '.' &&
      decide (0 < i) && decide (i + 1 < j) && decide (j + 1 < n) &&
      (cs.take i).all classA &&
      ((cs.drop (i + 1)).take (j - i - 1)).all classA &&
      (cs.drop (j + 1)).all isPyWordChar

/-- Time normalisation (bot.py:808-810): dots to colons, spaces removed,
bare one/two-character values get `:00` appended. -/
def normTime (t : String) : String :=
  let t1 := String.mk ((t.toList.map (fun c => if c = '.' then ':' else c)).filter
    (fun c => c ≠ ' '))
  if ¬ t1.toList.any (fun c => c = ':') = true ∧ t1.length ≤ 2 then t1 ++ ":00" else t1

/-- Date normalisation (bot.py:812-816): slashes to hyphens; a
`DD-MM-YYYY` triplet (first component of length 2) is reordered to
`YYYY-MM-DD`. -/
def normDate (s : String) : String :=
  let s1 := String.mk (s.toList.map (fun c => if c = '/' then '-' else c))
  if (s1.toList.filter (fun c => c = '-')).length = 2 then
    match (splitOnCharL '-' s1.toList).map String.mk with
    | [a, b, c] => if a.length = 2 then c ++ "-" ++ b ++ "-" ++ a else s1
    | _ => s1
  else s1

/-- `datetime.strptime(f"{date_str} {time_str}", "%Y-%m-%d %H:%M")`
(bot.py:819): a four-digit year, one/two-digit month, day, hour, minute
within range, and a valid calendar day; anything else raises
`ValueError`, modelled as `none`. -/
def strptimeYMDHM (dateStr timeStr : String) : Option DT :=
  match splitOnCharL '-' dateStr.toList, splitOnCharL ':' timeStr.toList with
  | [ys, ms, ds], [hs, mis] =>
    if ys.length = 4 ∧ allDigitsL ys ∧
       1 ≤ ms.length ∧ ms.length ≤ 2 ∧ allDigitsL ms ∧
       1 ≤ ds.length ∧ ds.length ≤ 2 ∧ allDigitsL ds ∧
       1 ≤ hs.length ∧ hs.length ≤ 2 ∧ allDigitsL hs ∧
       1 ≤ mis.length ∧ mis.length ≤ 2 ∧ allDigitsL mis then
      let y := digitsToNat ys
      let m := digitsToNat ms
      let d := digitsToNat ds
      let hh := digitsToNat hs
      let mm := digitsToNat mis
      if 1 ≤ y ∧ 1 ≤ m ∧ m ≤ 12 ∧ 1 ≤ d ∧ d ≤ daysInMonth y m ∧ hh ≤ 23 ∧ mm ≤ 59
      then some ⟨⟨y, m, d⟩, hh, mm, 0, 0⟩
      else none
    else none
  | _, _ => none

/-- The argument dictionary handed to `handle_appointment_booking`
(`data.get(...)` returning `None` for missing keys). -/
structure ApptData where
  name? : Option String
  contact? : Option String
  date? : Option String
  time? : Option String
  phone? : Option String
  deriving DecidableEq, Repr

/-- A row inserted into the `appointments` table by `save_appointment`
(bot.py:233-252). -/
structure SavedAppt where
  phone : String
  patientName : String
  contact : String
  time : DT
  eventId : Option String
  deriving DecidableEq, Repr

/-- Which branch of `handle_appointment_booking` produced the reply
(ghost trace of the source's control flow, bot.py:789-842). `errAttr`
covers the `AttributeError` on a missing (`None`) field, caught by the
outer `except`. -/
inductive Stage where
  | errAttr
  | errName
  | errContact
  | errFormat
  | errHours
  | errBusy
  | errCalendar
  | success
  deriving DecidableEq, Repr

/-- Result of one `handle_appointment_booking` call: the user-visible
reply, the appointment row persisted (if any), the calendar event id
created (if any), and the branch taken. -/
structure BookResult where
  reply : String
  saved : Option SavedAppt
  eventCreated : Option String
  stage : Stage
  deriving DecidableEq, Repr

/-- Reply of the outer `except` (bot.py:840-842). -/
def genericBookErr : String := "Error al agendar. Llámanos: +56 9 7533 2088"

/-- `handle_appointment_booking` (bot.py:789-842): name must have at
least two whitespace-separated tokens; contact must be a stripped
8+-digit phone or an email shape; time and date are normalised, parsed
with `strptime`, localised, validated against business hours and the
freebusy check, and finally the calendar event is created and the row
saved.  A `None` field raises `AttributeError` where first used; the
outer `except` turns any raise into `genericBookErr`. -/
def handle_appointment_booking (cal : Calendar) (now : DT) (d : ApptData) :
    BookResult :=
  match d.name? with
  | none => ⟨genericBookErr, none, none, Stage.errAttr⟩
  | some name =>
    if (pyWords name).length < 2 then
      ⟨"Por favor, dame tu nombre y apellido completo 😊", none, none, Stage.errName⟩
    else
      match d.contact? with
      | none => ⟨genericBookErr, none, none, Stage.errAttr⟩
      | some contact =>
        if ¬(is_phone (stripContact contact) = true ∨ isEmailShape contact = true) then
          ⟨"Necesito un teléfono válido (8+ dígitos) o un email 📱", none, none,
            Stage.errContact⟩
        else
          match d.time? with
          | none => ⟨genericBookErr, none, none, Stage.errAttr⟩
          | some time0 =>
            match d.date? with
            | none => ⟨genericBookErr, none, none, Stage.errAttr⟩
            | some date0 =>
              let timeStr := normTime time0
              let dateStr := normDate date0
              match strptimeYMDHM dateStr timeStr with
              | none => ⟨"Error en fecha/hora. Usa: YYYY-MM-DD y HH:MM", none, none,
                  Stage.errFormat⟩
              | some dt =>
                match validate_business_hours now dt with
                | some err => ⟨err, none, none, Stage.errHours⟩
                | none =>
                  if check_freebusy cal dt (addHours dt 1) then
                    ⟨"❌ " ++ dateStr ++ " a las " ++ timeStr ++
                      " ya está ocupado.\n¿Otro horario?", none, none, Stage.errBusy⟩
                  else
                    match create_appointment cal name contact dt with
                    | Except.error _ => ⟨genericBookErr, none, none, Stage.errCalendar⟩
                    | Except.ok eventId =>
                      ⟨"✅ ¡Listo " ++ name ++ "!\n📅 " ++ fmtDMY dt.date ++ " a las " ++
                          timeStr ++ "\n📍 Av. Reñaca Norte 25, Of. 1506\n\n¡Te esperamos!",
                        some ⟨d.phone?.getD "unknown", name, contact, dt, some eventId⟩,
                        some eventId, Stage.success⟩

/-- Length of the leading whitespace run. -/
def wsRun (cs : List Char) : Nat := (cs.takeWhile isPyWs).length

/-- Attempt `[^\n]+` at offset `k`: succeeds iff a non-newline character
is present there, capturing greedily to the end of the line. -/
def tryOffset (cs : List Char) (k : Nat) : Option (List Char) :=
  match cs.drop k with
  | [] => none
  | c :: rest =>
    if c = '\n' then none else some ((c :: rest).takeWhile (fun x => x ≠ '\n'))

/-- Backtracking `\s*([^\n]+)`: the greedy whitespace run is shortened
until the capture can start. -/
def capLineGo (cs : List Char) : Nat → Option (List Char)
  | 0 => tryOffset cs 0
  | k + 1 =>
    match tryOffset cs (k + 1) with
    | some r => some r
    | none => capLineGo cs k

/-- Match `\s*([^\n]+)` at the head of `cs`, returning the capture. -/
def capLine (cs : List Char) : Option (List Char) := capLineGo cs (wsRun cs)

/-- `re.search` for `label` followed by a tail pattern: scan positions
left to right, try the tail after each occurrence of the label. -/
def searchWith (label : List Char) (tailFn : List Char → Option (List Char)) :
    List Char → Option (List Char)
  | [] => none
  | c :: t =>
    if isPrefixL label (c :: t) then
      match tailFn ((c :: t).drop label.length) with
      | some r => some r
      | none => searchWith label tailFn t
    else searchWith label tailFn t

/-- `re.search(r'Label\s*([^\n]+)', s)` capture. -/
def searchCap (label : List Char) (cs : List Char) : Option (List Char) :=
  searchWith label capLine cs

/-- Tail of `Hora:\s*(\d{1,2}:\d{2})` after the label: the whitespace run
cannot backtrack onto a digit, then one or two digits, a colon, and two
digits. -/
def timeTail (cs : List Char) : Option (List Char) :=
  match cs.drop (wsRun cs) with
  | c0 :: c1 :: c2 :: c3 :: c4 :: _ =>
    if c0.isDigit && c1.isDigit && c2 = ':' && c3.isDigit && c4.isDigit then
      some [c0, c1, c2, c3, c4]
    else if c0.isDigit && c1 = ':' && c2.isDigit && c3.isDigit then
      some [c0, c1, c2, c3]
    else none
  | [c0, c1, c2, c3] =>
    if c0.isDigit && c1 = ':' && c2.isDigit && c3.isDigit then some [c0, c1, c2, c3]
    else none
  | _ => none

/-- `re.search(r'Hora:\s*(\d{1,2}:\d{2})', s)` capture (bot.py:692). -/
def searchHora (cs : List Char) : Option (List Char) :=
  searchWith ("Hora:".toList) timeTail cs

/-- `re.search(r'(?:Teléfono|Email):\s*([^\n]+)', s)` capture
(bot.py:693): at each position try the `Teléfono:` alternative, then
`Email:`. -/
def searchContacto : List Char → Option (List Char)
  | [] => none
  | c :: t =>
    match (if isPrefixL ("Teléfono:".toList) (c :: t) then
            capLine ((c :: t).drop ("Teléfono:".toList).length) else none) with
    | some r => some r
    | none =>
      match (if isPrefixL ("Email:".toList) (c :: t) then
              capLine ((c :: t).drop ("Email:".toList).length) else none) with
      | some r => some r
      | none => searchContacto t

/-- `re.search(r'(\d{2})/(\d{2})/(\d{4})', s)` (bot.py:699): leftmost
occurrence of the ten-character day/month/year digit pattern. -/
def searchDDMMYYYY : List Char → Option (List Char × List Char × List Char)
  | d1 :: d2 :: s1 :: m1 :: m2 :: s2 :: y1 :: y2 :: y3 :: y4 :: rest =>
    if d1.isDigit && d2.isDigit && s1 = '/' && m1.isDigit && m2.isDigit && s2 = '/' &&
       y1.isDigit && y2.isDigit && y3.isDigit && y4.isDigit then
      some ([d1, d2], [m1, m2], [y1, y2, y3, y4])
    else searchDDMMYYYY (d2 :: s1 :: m1 :: m2 :: s2 :: y1 :: y2 :: y3 :: y4 :: rest)
  | _ => none

/-- The dictionary stored in `pending_confirmations` (bot.py:707-713). -/
structure PendingData where
  name : String
  contact : String
  date : String
  time : String
  phone : String
  deriving DecidableEq, Repr

/-- `save_pending_confirmation` (bot.py:191-205): upsert for the
sender's key, modelled on the sender's store slot. -/
def save_pending_confirmation (_ : Option PendingData) (pd : PendingData) :
    Option PendingData := some pd

/-- `clear_pending_confirmation` (bot.py:224-231): unconditional delete
of the sender's row. -/
def clear_pending_confirmation (_ : Option PendingData) : Option PendingData := none

/-- `'¿Confirmas para agendar?' in bot_response or '¿Confirmas?' in
bot_response` (bot.py:686). -/
def containsConfirmQ (resp : String) : Bool :=
  containsSub resp "¿Confirmas para agendar?" || containsSub resp "¿Confirmas?"

/-- The summary-extraction block (bot.py:687-717): the four labelled
fields must all match; the date field is searched for a `DD/MM/YYYY`
pattern and otherwise silently defaults to tomorrow. -/
def extract_pending (botResponse from_phone : String) (now : DT) :
    Option PendingData :=
  if containsConfirmQ botResponse then
    match searchCap ("Nombre:".toList) botResponse.toList,
          searchCap ("Fecha:".toList) botResponse.toList,
          searchHora botResponse.toList,
          searchContacto botResponse.toList with
    | some nm, some dtx, some tm, some ct =>
      let dateFormatted :=
        match searchDDMMYYYY (pyStripL dtx) with
        | some (dd, mm, yy) => String.mk yy ++ "-" ++ String.mk mm ++ "-" ++ String.mk dd
        | none => fmtYMD (addDays now.date 1)
      some ⟨String.mk (pyStripL nm), String.mk (pyStripL ct), dateFormatted,
        String.mk (pyStripL tm), from_phone⟩
    | _, _, _, _ => none
  else none

/-- `re.search(r'\b(s[ií]|confirmo|dale|ok|okay|correcto)\b',
user_message.lower())` (bot.py:720): some alternative occurs with word
boundaries on both sides. -/
def matchesAffirmative (msg : String) : Bool :=
  let cs := (pyLower msg).toList
  let alts := ["sí", "si", "confirmo", "dale", "ok", "okay", "correcto"].map
    String.toList
  (List.range (cs.length + 1)).any fun i =>
    alts.any fun alt =>
      isPrefixL alt (cs.drop i) &&
      (decide (i = 0) || !isPyWordChar (cs.getD (i - 1) ' ')) &&
      (decide (cs.length ≤ i + alt.length) || !isPyWordChar (cs.getD (i + alt.length) ' '))

/-- One `(date, time)` entry of the `appointments` list argument of the
multi-booking tool. -/
structure ApptSlot where
  date? : Option String
  time? : Option String
  deriving DecidableEq, Repr

/-- The decoded `function_call.args` dictionary (`args.get(...)`;
`args.get('appointments', [])` defaults to the empty list). -/
structure ToolArgs where
  name? : Option String
  contact? : Option String
  date? : Option String
  time? : Option String
  appointments : List ApptSlot
  deriving DecidableEq, Repr

/-- The Gemini oracle's reply as consumed by `generate_response`
(bot.py:604-614): an empty/invalid response, a tool call, or plain
text. -/
inductive LLMResponse where
  | empty
  | functionCall (fname : String) (args : ToolArgs)
  | text (s : String)
  deriving Repr

/-- View a stored pending confirmation as booking-handler input: every
key is present. -/
def toApptData (p : PendingData) : ApptData :=
  ⟨some p.name, some p.contact, some p.date, some p.time, some p.phone⟩

/-- Observable outcome of one `generate_response` turn: the reply, the
sender's pending-confirmation slot afterwards, the appointment rows
persisted, and the calendar event ids created. -/
structure GRResult where
  reply : String
  pendingAfter : Option PendingData
  saved : List SavedAppt
  events : List String
  deriving DecidableEq, Repr

/-- `generate_response` (bot.py:388-730) after the Gemini call, with the
oracle as a parameter applied to the user's message (the prompt text,
history, context bookkeeping of bot.py:394-408 and the availability
strings fed into the prompt do not affect the dispatch and are omitted).
Branches: empty oracle output → apology; `book_single_appointment` →
book then clear the pending slot; `book_multiple_appointments` → book
each listed slot through the single-booking path and aggregate, then
clear; unknown tool → apology; plain text → optionally store an
extracted summary as pending, and if a pending confirmation existed and
the message matches the affirmative vocabulary, book it and clear. -/
def generate_response (oracle : String → LLMResponse) (cal : Calendar) (now : DT)
    (pending : Option PendingData) (user_message from_phone : String) : GRResult :=
  match oracle user_message with
  | LLMResponse.empty =>
    ⟨"Disculpa, algo salió mal al procesar tu solicitud. ¿Puedes repetir?",
      pending, [], []⟩
  | LLMResponse.functionCall fname args =>
    if fname = "book_single_appointment" then
      let r := handle_appointment_booking cal now
        ⟨args.name?, args.contact?, args.date?, args.time?, some from_phone⟩
      ⟨r.reply, clear_pending_confirmation pending, r.saved.toList,
        r.eventCreated.toList⟩
    else if fname = "book_multiple_appointments" then
      if args.appointments.isEmpty then
        ⟨"Error: Se intentó agendar múltiples citas pero no se encontraron fechas/horas.",
          pending, [], []⟩
      else
        let rs := args.appointments.map fun a =>
          handle_appointment_booking cal now
            ⟨args.name?, args.contact?, a.date?, a.time?, some from_phone⟩
        ⟨"¡Agendamiento múltiple completado!\n\n" ++
            joinSep "\n\n" (rs.map (fun x => x.reply)),
          clear_pending_confirmation pending,
          rs.filterMap (fun x => x.saved), rs.filterMap (fun x => x.eventCreated)⟩
    else
      ⟨"Disculpa, tuve un problema interno (Herramienta desconocida).", pending, [], []⟩
  | LLMResponse.text s =>
    let botResponse := pyStripS s
    let storeAfterExtract :=
      match extract_pending botResponse from_phone now with
      | some pd => save_pending_confirmation pending pd
      | none => pending
    match pending with
    | some p =>
      if matchesAffirmative user_message then
        let r := handle_appointment_booking cal now (toApptData p)
        ⟨r.reply, clear_pending_confirmation storeAfterExtract,
          r.saved.toList, r.eventCreated.toList⟩
      else ⟨botResponse, storeAfterExtract, [], []⟩
    | none => ⟨botResponse, storeAfterExtract, [], []⟩

/-- The mutable fields of one `MESSAGE_BUFFER` session guarded by its
lock (bot.py:257-262): the unflushed lines and the timer reference,
timers identified by allocation number. -/
structure Session where
  messages : List String
  timerRef : Option Nat
  deriving DecidableEq, Repr

/-- `process_buffered_messages` body under the lock (bot.py:280-291):
an empty buffer is a no-op; otherwise the lines are joined with
newlines, the buffer is cleared and the timer reference nulled, and the
combined turn is returned for processing outside the lock. -/
def process_buffered_messages (s : Session) : Session × Option String :=
  if s.messages.isEmpty then (s, none)
  else (⟨[], none⟩, some (joinSep "\n" s.messages))

/-- Global state of one sender's buffer world: the session fields, the
set of timers still in their waiting stage (cancellable), the timers
whose delay has elapsed and whose callback is started but has not yet
run the locked body, a fresh-id counter, and the combined turns already
handed to the orchestrator. -/
structure BufWorld where
  msgs : List String
  timerRef : Option Nat
  scheduled : List Nat
  running : List Nat
  nextId : Nat
  flushed : List String
  deriving DecidableEq, Repr

/-- `threading.Timer.cancel`: removes the timer only if it is still in
its waiting stage. -/
def cancelT (sched : List Nat) (t : Nat) : List Nat :=
  sched.filter (fun x => x ≠ t)

/-- The webhook's locked enqueue step (bot.py:956-968): append the
message, cancel the referenced timer, schedule a fresh one and point the
reference at it. -/
def enqueueW (w : BufWorld) (text : String) : BufWorld :=
  { msgs := w.msgs ++ [text]
    timerRef := some w.nextId
    scheduled :=
      (match w.timerRef with
       | some t => cancelT w.scheduled t
       | none => w.scheduled) ++ [w.nextId]
    running := w.running
    nextId := w.nextId + 1
    flushed := w.flushed }

/-- A scheduled timer's delay elapses: it leaves the waiting stage
(escaping any later `cancel`) and its callback becomes pending. -/
def expireW (w : BufWorld) (t : Nat) : BufWorld :=
  { w with scheduled := cancelT w.scheduled t, running := w.running ++ [t] }

/-- A pending callback acquires the lock and runs
`process_buffered_messages`; a produced combined turn is handed to the
orchestrator. -/
def runFlushW (w : BufWorld) (t : Nat) : BufWorld :=
  let res := process_buffered_messages ⟨w.msgs, w.timerRef⟩
  { msgs := res.1.messages
    timerRef := res.1.timerRef
    scheduled := w.scheduled
    running := cancelT w.running t
    nextId := w.nextId
    flushed := w.flushed ++ res.2.toList }

/-- Interleaving semantics of one sender's session: HTTP-handler
enqueues, timer expiries, and callback bodies, in any order consistent
with timer identity. -/
inductive BufStep : BufWorld → BufWorld → Prop
  | enqueue (w : BufWorld) (text : String) : BufStep w (enqueueW w text)
  | expire (w : BufWorld) (t : Nat) (h : t ∈ w.scheduled) : BufStep w (expireW w t)
  | run (w : BufWorld) (t : Nat) (h : t ∈ w.running) : BufStep w (runFlushW w t)

/-- The empty initial session. -/
def initW : BufWorld := ⟨[], none, [], [], 0, []⟩

/-- Reachability under the interleaving semantics. -/
inductive BufReach : BufWorld → Prop
  | init : BufReach initW
  | step {w w' : BufWorld} : BufReach w → BufStep w w' → BufReach w'

/-- Idealised semantics in which a timer's expiry and its callback body
are one atomic step, i.e. cancellation always prevents the callback;
this is the reading under which the debouncer invariant is stated. -/
inductive AtomStep : BufWorld → BufWorld → Prop
  | enqueue (w : BufWorld) (text : String) : AtomStep w (enqueueW w text)
  | fire (w : BufWorld) (t : Nat) (h : t ∈ w.scheduled) :
      AtomStep w (runFlushW (expireW w t) t)

/-- Reachability under the atomic-callback semantics. -/
inductive AtomReach : BufWorld → Prop
  | init : AtomReach initW
  | step {w w' : BufWorld} : AtomReach w → AtomStep w w' → AtomReach w'

/-- The debouncer invariant: no callback in flight, and the waiting
timers are at most the single one the session references. -/
def timerInv (w : BufWorld) : Prop :=
  (w.scheduled = [] ∨ ∃ t, w.scheduled = [t] ∧ w.timerRef = some t) ∧ w.running = []

/-- Spec-side business-hours predicate, for comparison with
`validate_business_hours`: the hour lies in `[openHour, closeHour)` of
the fixed schedule (Tue/Thu 15-19, Wed/Fri 10-18, Sat 10-13, Sun/Mon
closed). -/
def spec_business_hours_ok (dt : DT) : Bool :=
  if weekday dt.date = 0 then false
  else if weekday dt.date = 6 then false
  else if weekday dt.date = 1 || weekday dt.date = 3 then
    decide (15 ≤ dt.h ∧ dt.h < 19)
  else if weekday dt.date = 2 || weekday dt.date = 4 then
    decide (10 ≤ dt.h ∧ dt.h < 18)
  else if weekday dt.date = 5 then decide (10 ≤ dt.h ∧ dt.h < 13)
  else false

/-- Spec-side slot enumeration, for comparison with
`get_available_slots`: the fixed hourly slots of the weekday that are
strictly in the future, with the calendar ignored. -/
def spec_open_future_slots (now dateArg : DT) : List String :=
  if weekday dateArg.date = 0 || weekday dateArg.date = 6 then []
  else
    ((slotsFor (weekday dateArg.date)).filter (fun h =>
        decide (toStamp ⟨dateArg.date, h, 0, 0, 0⟩ > toStamp now))).map fmtSlot

/-- Modelled from the spec: the fixed human-handoff reply for critical
medical conditions.  It exists in the source only as instruction text
inside the Gemini prompt (bot.py:478-479), not as a value any code path
returns. -/
def handoff_message : String :=
  "Por tu condición, es importante que hables directamente con nuestro quiropráctico para evaluar tu caso. Te recomiendo llamar al +56 9 7533 2088 para coordinar una evaluación personalizada."

/-- A calendar whose freebusy reads succeed reporting free and whose
event creation succeeds. -/
def calOkFree : Calendar := ⟨fun _ _ => Except.ok false, fun _ => Except.ok "evt-1"⟩

/-- A calendar whose freebusy query always raises but whose event
creation succeeds. -/
def calFreebusyErr : Calendar :=
  ⟨fun _ _ => Except.error (), fun _ => Except.ok "evt-2"⟩

/-- A calendar on which every operation raises. -/
def calAlwaysErr : Calendar := ⟨fun _ _ => Except.error (), fun _ => Except.error ()⟩

/-- A calendar whose freebusy reads report free but whose event creation
always raises. -/
def calCreateErr : Calendar := ⟨fun _ _ => Except.ok false, fun _ => Except.error ()⟩

/-- A calendar that reports every slot free and fails event creation
exactly for events starting at 15:00 (used for a partial multi-booking
failure). -/
def calMix : Calendar :=
  ⟨fun _ _ => Except.ok false,
   fun e => if e.start.h = 15 then Except.error () else Except.ok "evt-3"⟩

/-- Reference instant: Wednesday 2025-11-12, 08:00 clinic time. -/
def now0 : DT := ⟨⟨2025, 11, 12⟩, 8, 0, 0, 0⟩

/-- A fully valid single-booking argument dictionary. -/
def apptAna : ApptData :=
  ⟨some "Ana Soto", some "912345678", some "2025-11-12", some "11:00",
    some "+56911112222"⟩

/-- A stored pending confirmation for the same candidate. -/
def pendingAna : PendingData :=
  ⟨"Ana Soto", "912345678", "2025-11-12", "11:00", "+56911112222"⟩

/-- Multi-booking arguments: Thursday 15:00 (whose event creation
`calMix` fails) followed by Friday 11:00 (which succeeds). -/
def argsMix : ToolArgs :=
  ⟨some "Ana Soto", some "912345678", none, none,
    [⟨some "2025-11-13", some "15:00"⟩, ⟨some "2025-11-14", some "11:00"⟩]⟩

/-- The reachable buffer state exhibiting two simultaneously scheduled
timers: enqueue, timer 0 expires, second enqueue (whose cancel misses
the expired timer 0), timer 0's callback flushes and nulls the
reference, third enqueue (nothing to cancel, timer 1 still waiting). -/
def bufRaceState : BufWorld :=
  enqueueW (runFlushW (enqueueW (expireW (enqueueW initW "hola") 0)
    "quiero hora para mañana") 0) "y también para el jueves"

/-- Weekdays range over 0..6. -/
theorem weekday_lt_7 (d : Date) : weekday d < 7 := Nat.mod_lt _ (by norm_num)

/-- Cancelling a timer that is the only scheduled one empties the
waiting set. -/
theorem cancelT_singleton (t : Nat) : cancelT [t] t = [] := by
  simp [cancelT]

/-- One atomic step preserves the debouncer invariant. -/
theorem timerInv_atomStep {w w' : BufWorld} (hI : timerInv w) (hs : AtomStep w w') :
    timerInv w' := by
  obtain ⟨hsch, hrun⟩ := hI
  cases hs with
  | enqueue text =>
    refine ⟨Or.inr ⟨w.nextId, ?_, rfl⟩, hrun⟩
    rcases hsch with h0 | ⟨t, hts, htr⟩
    · cases h : w.timerRef <;> simp [enqueueW, h, h0, cancelT]
    · simp [enqueueW, htr, hts, cancelT_singleton]
  | fire t ht =>
    rcases hsch with h0 | ⟨u, hts, htr⟩
    · rw [h0] at ht; cases ht
    · rw [hts] at ht
      have htu : t = u := by simpa using ht
      subst htu
      constructor
      · left
        simp [runFlushW, expireW, hts, cancelT_singleton, process_buffered_messages]
      · simp [runFlushW, expireW, hrun, cancelT_singleton, cancelT,
          process_buffered_messages]

/-- Every atomically-reachable buffer state satisfies the debouncer
invariant. -/
theorem timerInv_of_atomReach {w : BufWorld} (h : AtomReach w) : timerInv w := by
  induction h with
  | init => exact ⟨Or.inl rfl, rfl⟩
  | step _ hs ih => exact timerInv_atomStep ih hs

/-- C1, counterexample: on a calendar whose conflict check always raises,
`get_available_slots` still reports Wednesday slots as free and the
booking path proceeds to create the event and persist the appointment —
the claimed fail-closed behaviour does not hold. -/
theorem c1_counterexample :
    ("10:00" ∈ get_available_slots calFreebusyErr now0 now0) ∧
    (handle_appointment_booking calFreebusyErr now0 apptAna).stage = Stage.success ∧
    (handle_appointment_booking calFreebusyErr now0 apptAna).saved.isSome = true := by
  refine ⟨by decide, by decide, by decide⟩

/-- C1, amended: a failed conflict read is treated as "free" (fail-open):
`check_freebusy` returns `false` whenever the calendar query raises, so
on an always-failing calendar the available-slot list is exactly the
weekday's future schedule with the calendar ignored. -/
theorem c1_calendar_failure_fail_open (now dateArg : DT) :
    (∀ s e : DT, check_freebusy calAlwaysErr s e = false) ∧
    get_available_slots calAlwaysErr now dateArg = spec_open_future_slots now dateArg := by
  constructor
  · intro s e; rfl
  · unfold get_available_slots spec_open_future_slots
    simp [check_freebusy, calAlwaysErr]

/-- C2, counterexample: for a message containing "estoy embarazada" the
orchestrator's reply is whatever the LLM oracle answers (here a plain
greeting), not the fixed human-handoff message — there is no code-level
keyword short-circuit. -/
theorem c2_counterexample :
    (generate_response (fun _ => LLMResponse.text "Hola, ¿en qué puedo ayudarte?")
        calOkFree now0 none "Hola, estoy embarazada y me duele mucho la espalda"
        "+56911112222").reply = "Hola, ¿en qué puedo ayudarte?" ∧
    "Hola, ¿en qué puedo ayudarte?" ≠ handoff_message := by
  exact ⟨by decide, by decide⟩

/-- C2, amended: the orchestrator consults the LLM oracle on every turn;
with no pending confirmation, whatever plain text the oracle returns is
delivered (trimmed) as the reply — including for messages matching the
critical-condition list, whose handoff behaviour exists only as prompt
instructions to the oracle. -/
theorem c2_no_keyword_short_circuit (cal : Calendar) (now : DT) (s msg phone : String) :
    (generate_response (fun _ => LLMResponse.text s) cal now none msg phone).reply =
      pyStripS s := rfl

/-- C3, counterexample: with a live pending confirmation, replying "no"
leaves the pending record in the store (it is not cleared) and creates
no booking. -/
theorem c3_counterexample :
    (generate_response (fun _ => LLMResponse.text "Entiendo, ¿qué día te acomoda mejor?")
        calOkFree now0 (some pendingAna) "no" "+56911112222").pendingAfter =
      some pendingAna ∧
    (generate_response (fun _ => LLMResponse.text "Entiendo, ¿qué día te acomoda mejor?")
        calOkFree now0 (some pendingAna) "no" "+56911112222").saved = [] := by
  exact ⟨by decide, by decide⟩

/-- C3, amended: a reply that does not match the affirmative vocabulary
(such as "no", "cancelar", "cambiar") books nothing, and — because the
code has no negative-reply branch — leaves the PendingConfirmation
untouched whenever the oracle's text does not itself carry a new
extractable summary; the reply is simply the oracle's text. -/
theorem c3_negative_reply_keeps_pending (cal : Calendar) (now : DT) (pd : PendingData)
    (s msg phone : String) (h1 : matchesAffirmative msg = false)
    (h2 : extract_pending (pyStripS s) phone now = none) :
    (generate_response (fun _ => LLMResponse.text s) cal now (some pd) msg phone).pendingAfter
        = some pd ∧
    (generate_response (fun _ => LLMResponse.text s) cal now (some pd) msg phone).saved = [] ∧
    (generate_response (fun _ => LLMResponse.text s) cal now (some pd) msg phone).events = [] := by
  simp [generate_response, h1, h2]

/-- C3, witness: the amended theorem applied to the concrete "cancelar"
reply. -/
theorem c3_witness :
    (generate_response (fun _ => LLMResponse.text "Claro, dime otro horario.")
        calOkFree now0 (some pendingAna) "cancelar" "+56911112222").pendingAfter =
        some pendingAna ∧
    (generate_response (fun _ => LLMResponse.text "Claro, dime otro horario.")
        calOkFree now0 (some pendingAna) "cancelar" "+56911112222").saved = [] ∧
    (generate_response (fun _ => LLMResponse.text "Claro, dime otro horario.")
        calOkFree now0 (some pendingAna) "cancelar" "+56911112222").events = [] :=
  c3_negative_reply_keeps_pending calOkFree now0 pendingAna
    "Claro, dime otro horario." "cancelar" "+56911112222" (by decide) (by decide)

/-- Equal instants compare as not-earlier, so the Wednesday 10:00
candidate taken exactly at "now" is accepted by the validator. -/
def wedEq : DT := ⟨⟨2025, 11, 12⟩, 10, 0, 0, 0⟩

/-- C4, counterexample: a candidate equal to "now" (Wednesday 10:00) is
accepted even though it is not strictly in the future — the code rejects
only `dt < now`. -/
theorem c4_counterexample :
    validate_business_hours wedEq wedEq = none ∧ ¬ toStamp wedEq > toStamp wedEq := by
  exact ⟨by decide, by decide⟩

/-- C4, amended: a candidate is accepted iff its hour lies in
`[openHour, closeHour)` of the fixed weekday schedule and the timestamp
is not earlier than "now" (equality with "now" is accepted); in
particular a future Monday is rejected at any hour, Wednesday 10:00 is
accepted, Wednesday 18:00 rejected, Tuesday 15:00 accepted, Tuesday
14:00 rejected. -/
theorem c4_business_hours :
    (∀ now dt : DT, validate_business_hours now dt = none ↔
      (¬ toStamp dt < toStamp now ∧ spec_business_hours_ok dt = true)) ∧
    validate_business_hours now0 ⟨⟨2025, 11, 17⟩, 11, 0, 0, 0⟩ =
      some "❌ Cerrados los lunes" ∧
    validate_business_hours now0 ⟨⟨2025, 11, 12⟩, 10, 0, 0, 0⟩ = none ∧
    validate_business_hours now0 ⟨⟨2025, 11, 12⟩, 18, 0, 0, 0⟩ =
      some "❌ Mié/Vie atendemos 10:00-18:00" ∧
    validate_business_hours now0 ⟨⟨2025, 11, 18⟩, 15, 0, 0, 0⟩ = none ∧
    validate_business_hours now0 ⟨⟨2025, 11, 18⟩, 14, 0, 0, 0⟩ =
      some "❌ Mar/Jue atendemos 15:00-19:00" := by
  refine ⟨fun now dt => ?_, by decide, by decide, by decide, by decide, by decide⟩
  have h7 := weekday_lt_7 dt.date
  unfold validate_business_hours spec_business_hours_ok
  split_ifs <;> simp_all <;> omega

/-- C5, counterexample: a reachable interleaving in which a timer whose
delay has elapsed escapes the enqueue's `cancel`, flushes early, and
nulls the reference while a second timer is still waiting, after which a
third enqueue cancels nothing — leaving two simultaneously scheduled
flush timers for the session. -/
theorem c5_counterexample :
    BufReach bufRaceState ∧ bufRaceState.scheduled = [1, 2] := by
  constructor
  · exact BufReach.step (BufReach.step (BufReach.step (BufReach.step (BufReach.step
      BufReach.init (BufStep.enqueue initW "hola"))
      (BufStep.expire _ 0 (by decide)))
      (BufStep.enqueue _ "quiero hora para mañana"))
      (BufStep.run _ 0 (by decide)))
      (BufStep.enqueue _ "y también para el jueves")
  · decide

/-- C5, amended: each enqueue cancels the referenced timer before
scheduling a replacement, so under the atomic reading of timer expiry
(cancellation always prevents the callback) every reachable session
state has at most one scheduled flush timer, and the timer reference
points at it; the invariant can only break through the
expired-but-not-yet-run callback race exhibited by the counterexample. -/
theorem c5_single_timer_atomic {w : BufWorld} (h : AtomReach w) :
    w.scheduled.length ≤ 1 ∧ ∀ t ∈ w.scheduled, w.timerRef = some t := by
  obtain ⟨hs, _⟩ := timerInv_of_atomReach h
  rcases hs with h0 | ⟨t, hts, htr⟩
  · simp [h0]
  · rw [hts]
    refine ⟨by simp, ?_⟩
    intro u hu
    have : u = t := by simpa using hu
    rw [this, htr]

/-- C5, witness: the amended invariant at the state reached by one
enqueue. -/
theorem c5_witness :
    (enqueueW initW "hola").scheduled.length ≤ 1 ∧
    ∀ t ∈ (enqueueW initW "hola").scheduled,
      (enqueueW initW "hola").timerRef = some t :=
  c5_single_timer_atomic (AtomReach.step AtomReach.init (AtomStep.enqueue initW "hola"))

/-- C6: the flush body is a pure state transformation under the lock —
an empty buffer is a no-op, and otherwise the buffered lines are joined
with newlines in arrival order into one combined turn while the buffer
and timer reference are cleared; the combined text is what is handed to
the orchestrator outside the lock. -/
theorem c6_flush_joins_and_clears (s : Session) :
    (s.messages = [] → process_buffered_messages s = (s, none)) ∧
    (s.messages ≠ [] →
      process_buffered_messages s = (⟨[], none⟩, some (joinSep "\n" s.messages))) := by
  constructor <;> intro h <;> simp [process_buffered_messages, h]

/-- C6, witness: a two-line buffer flushes to the newline-join and a
cleared session; an empty buffer is untouched. -/
theorem c6_witness :
    process_buffered_messages ⟨["hola", "quiero hora"], some 3⟩ =
      (⟨[], none⟩, some "hola\nquiero hora") ∧
    process_buffered_messages ⟨[], some 7⟩ = (⟨[], some 7⟩, none) := by
  constructor
  · rw [(c6_flush_joins_and_clears ⟨["hola", "quiero hora"], some 3⟩).2 (by decide)]
    decide
  · exact (c6_flush_joins_and_clears ⟨[], some 7⟩).1 rfl

/-- C7: the appointment row is persisted only on the success branch,
carrying exactly the confirmed event id returned by the calendar; on the
calendar-commit failure branch nothing is persisted and the reply
contains the fallback human contact number. -/
theorem c7_no_record_without_event (cal : Calendar) (now : DT) (d : ApptData) :
    (∀ a, (handle_appointment_booking cal now d).saved = some a →
      (handle_appointment_booking cal now d).stage = Stage.success ∧
      (handle_appointment_booking cal now d).eventCreated = a.eventId ∧
      a.eventId.isSome = true) ∧
    ((handle_appointment_booking cal now d).stage = Stage.errCalendar →
      (handle_appointment_booking cal now d).saved = none ∧
      containsSub (handle_appointment_booking cal now d).reply "+56 9 7533 2088" = true) := by
  simp only [handle_appointment_booking]
  repeat' split
  all_goals refine ⟨fun a ha => ?_, fun hs => ?_⟩
  all_goals (try simp_all)
  all_goals (first
    | decide
    | (rw [← ha]; exact ⟨rfl, rfl⟩))

/-- C7, witness: on a calendar whose event creation raises, a fully
valid booking attempt persists nothing and replies with the fallback
number. -/
theorem c7_witness :
    (handle_appointment_booking calCreateErr now0 apptAna).saved = none ∧
    containsSub (handle_appointment_booking calCreateErr now0 apptAna).reply
      "+56 9 7533 2088" = true :=
  (c7_no_record_without_event calCreateErr now0 apptAna).2 (by decide)

/-- C8: a confirmed multi-appointment booking maps the single-booking
path over the slot list independently — the aggregated reply itemises
every slot's outcome in order, the persisted rows are exactly the
successful slots' rows, and slot `i`'s outcome is the single-booking
result on slot `i` alone, so a failure at one slot does not abort the
later ones and nothing is rolled back. -/
theorem c8_multi_booking_independent (cal : Calendar) (now : DT) (args : ToolArgs)
    (pending : Option PendingData) (msg phone : String)
    (h : args.appointments ≠ []) :
    (generate_response (fun _ => LLMResponse.functionCall "book_multiple_appointments" args)
        cal now pending msg phone).reply =
      "¡Agendamiento múltiple completado!\n\n" ++
        joinSep "\n\n" ((args.appointments.map (fun a =>
          handle_appointment_booking cal now
            ⟨args.name?, args.contact?, a.date?, a.time?, some phone⟩)).map
              (fun x => x.reply)) ∧
    (generate_response (fun _ => LLMResponse.functionCall "book_multiple_appointments" args)
        cal now pending msg phone).saved =
      (args.appointments.map (fun a =>
        handle_appointment_booking cal now
          ⟨args.name?, args.contact?, a.date?, a.time?, some phone⟩)).filterMap
            (fun x => x.saved) ∧
    ∀ i (hi : i < args.appointments.length),
      (args.appointments.map (fun a =>
        handle_appointment_booking cal now
          ⟨args.name?, args.contact?, a.date?, a.time?, some phone⟩)).get
            ⟨i, by simpa using hi⟩ =
        handle_appointment_booking cal now
          ⟨args.name?, args.contact?, (args.appointments.get ⟨i, hi⟩).date?,
            (args.appointments.get ⟨i, hi⟩).time?, some phone⟩ := by
  have hne : ("book_multiple_appointments" : String) ≠ "book_single_appointment" := by
    decide
  have hemp : args.appointments.isEmpty = false := by
    cases hA : args.appointments with
    | nil => exact absurd hA h
    | cons a as => rfl
  refine ⟨?_, ?_, ?_⟩ <;>
    simp [generate_response, hne, hemp, List.get_map]

/-- C8, witness: on a calendar that fails event creation exactly for the
first slot (Thursday 15:00) and succeeds for the second (Friday 11:00),
the aggregated reply carries both the failure text and the success text,
exactly one row is persisted, and the outcome count follows from the
theorem. -/
theorem c8_witness :
    ((generate_response (fun _ => LLMResponse.functionCall "book_multiple_appointments" argsMix)
        calMix now0 none "sí" "+56911112222").saved.length = 1 ∧
      containsSub (generate_response
          (fun _ => LLMResponse.functionCall "book_multiple_appointments" argsMix)
          calMix now0 none "sí" "+56911112222").reply "Error al agendar" = true ∧
      containsSub (generate_response
          (fun _ => LLMResponse.functionCall "book_multiple_appointments" argsMix)
          calMix now0 none "sí" "+56911112222").reply "¡Listo Ana Soto!" = true) ∧
    (generate_response (fun _ => LLMResponse.functionCall "book_multiple_appointments" argsMix)
        calMix now0 none "sí" "+56911112222").saved =
      (argsMix.appointments.map (fun a =>
        handle_appointment_booking calMix now0
          ⟨argsMix.name?, argsMix.contact?, a.date?, a.time?,
            some "+56911112222"⟩)).filterMap (fun x => x.saved) :=
  ⟨by decide,
   (c8_multi_booking_independent calMix now0 argsMix none "sí" "+56911112222"
       (by decide)).2.1⟩

/-- C9: after the name check passes, the booking is rejected with the
contact clarification exactly when the stripped contact is not an
8+-digit number and the original string does not match the email
regex; the spec's four examples behave as claimed. -/
theorem c9_contact_validation :
    (∀ (cal : Calendar) (now : DT) (nm c : String) (d t ph : Option String),
      2 ≤ (pyWords nm).length →
      (((handle_appointment_booking cal now ⟨some nm, some c, d, t, ph⟩).stage =
          Stage.errContact) ↔
        ¬(is_phone (stripContact c) = true ∨ isEmailShape c = true)) ∧
      (¬(is_phone (stripContact c) = true ∨ isEmailShape c = true) →
        (handle_appointment_booking cal now ⟨some nm, some c, d, t, ph⟩).reply =
          "Necesito un teléfono válido (8+ dígitos) o un email 📱" ∧
        (handle_appointment_booking cal now ⟨some nm, some c, d, t, ph⟩).saved = none)) ∧
    is_phone (stripContact "+56 9 1234 5678") = true ∧
    isEmailShape "a@b.co" = true ∧
    (is_phone (stripContact "1234567") || isEmailShape "1234567") = false ∧
    (is_phone (stripContact "not-an-email") || isEmailShape "not-an-email") = false := by
  refine ⟨?_, by decide, by decide, by decide, by decide⟩
  intro cal now nm c d t ph hnm
  have hlt : ¬ (pyWords nm).length < 2 := by omega
  constructor
  · simp only [handle_appointment_booking, hlt, if_false]
    repeat' split
    all_goals simp_all
  · intro hc
    simp only [handle_appointment_booking, hlt, if_false]
    rw [if_pos hc]
    exact ⟨rfl, rfl⟩

/-- C9, witness: a seven-digit contact with a valid two-token name is
rejected at the contact stage. -/
theorem c9_witness :
    2 ≤ (pyWords "Ana Soto").length ∧
    (handle_appointment_booking calOkFree now0
        ⟨some "Ana Soto", some "1234567", some "2025-11-12", some "11:00",
          some "+56911112222"⟩).stage = Stage.errContact :=
  ⟨by decide,
   ((c9_contact_validation.1 calOkFree now0 "Ana Soto" "1234567"
        (some "2025-11-12") (some "11:00") (some "+56911112222")
        (by decide)).1).mpr (by decide)⟩

/-- C10: when the oracle's text reply (trimmed) contains the
confirmation question and the Nombre/Fecha/Hora/Teléfono-Email searches
all match, the extracted candidate is stored as the sender's pending
confirmation; and when the date text contains no `DD/MM/YYYY` pattern,
the stored date silently defaults to tomorrow (`now + 1 day`) instead of
being rejected. -/
theorem c10_pending_defaults_to_tomorrow (cal : Calendar) (now : DT)
    (pending : Option PendingData) (s msg phone : String) (nm dtx tm ct : List Char)
    (h0 : ¬(pending.isSome = true ∧ matchesAffirmative msg = true))
    (h1 : containsConfirmQ (pyStripS s) = true)
    (h2 : searchCap ("Nombre:".toList) (pyStripS s).toList = some nm)
    (h3 : searchCap ("Fecha:".toList) (pyStripS s).toList = some dtx)
    (h4 : searchHora (pyStripS s).toList = some tm)
    (h5 : searchContacto (pyStripS s).toList = some ct)
    (h6 : searchDDMMYYYY (pyStripL dtx) = none) :
    (generate_response (fun _ => LLMResponse.text s) cal now pending msg
        phone).pendingAfter =
      some ⟨String.mk (pyStripL nm), String.mk (pyStripL ct),
        fmtYMD (addDays now.date 1), String.mk (pyStripL tm), phone⟩ := by
  have hext : extract_pending (pyStripS s) phone now =
      some ⟨String.mk (pyStripL nm), String.mk (pyStripL ct),
        fmtYMD (addDays now.date 1), String.mk (pyStripL tm), phone⟩ := by
    unfold extract_pending
    rw [h1, h2, h3, h4, h5]
    simp [h6]
  cases hp : pending with
  | none => simp [generate_response, hext, save_pending_confirmation]
  | some p =>
    rw [hp] at h0
    have hAff : matchesAffirmative msg = false := by
      cases hmm : matchesAffirmative msg
      · rfl
      · exact absurd ⟨rfl, hmm⟩ h0
    simp [generate_response, hext, hAff, save_pending_confirmation]

/-- C10, witness: a concrete summary whose date text is "Miércoles
próximo" (no `DD/MM/YYYY`) stores a pending confirmation dated tomorrow
relative to Wednesday 2025-11-12. -/
theorem c10_witness :
    (generate_response (fun _ => LLMResponse.text
        "📋 Resumen de tu cita:\n• Nombre: Ana Soto\n• Fecha: Miércoles próximo\n• Hora: 11:00\n• Teléfono: 912345678\n\n¿Confirmas para agendar?")
        calOkFree now0 none "quiero el miércoles a las 11" "+56911112222").pendingAfter =
      some ⟨String.mk (pyStripL ("Ana Soto".toList)),
        String.mk (pyStripL ("912345678".toList)), fmtYMD (addDays now0.date 1),
        String.mk (pyStripL ("11:00".toList)), "+56911112222"⟩ :=
  c10_pending_defaults_to_tomorrow calOkFree now0 none
    "📋 Resumen de tu cita:\n• Nombre: Ana Soto\n• Fecha: Miércoles próximo\n• Hora: 11:00\n• Teléfono: 912345678\n\n¿Confirmas para agendar?"
    "quiero el miércoles a las 11" "+56911112222"
    ("Ana Soto".toList) ("Miércoles próximo".toList) ("11:00".toList)
    ("912345678".toList)
    (by decide) (by decide) (by decide) (by decide) (by decide) (by decide) (by decide)

end Bot
